import Mathlib

/-!
# Verification of the urbtec utility-labelling core

Shallow embedding of the algorithmic core of the meter-image labelling tool:
the OBB geometry transform (`src/utils/obb.py`), the class-distribution
tracker and stratified sampling selector (`src/utils/database.py`,
`src/utils/models/annotation.py`) and the fetch-with-retry orchestrator
(`src/pages/1_🏷️_Meter_Labelling.py`).

Modelling conventions: Python floats are modelled exactly as rationals (ℚ);
the two trigonometric values `math.cos(math.radians(angle))` and
`math.sin(math.radians(angle))` are the one step a rational embedding cannot
compute, so functions that use them take the pair `(cos_a, sin_a)` as input,
exactly where the source binds those two local variables (angle = 0 degrees
corresponds to the exact pair `(1, 0)`, 90 degrees to `(0, 1)`, and so on).
Randomness (`random.random()`, `random.shuffle`, SQL `ORDER BY RAND()`) is
passed in explicitly: a draw `r ∈ [0,1)`, a client order, and a pick index.
-/

namespace UrbtecLabelling

/-- Oriented bounding box: four corners, each coordinate normalized to the
unit interval. Mirrors `OBBCoordinates` in `src/utils/models/annotation.py`
(lines 46-78). -/
structure OBBCoordinates where
  x1 : ℚ
  y1 : ℚ
  x2 : ℚ
  y2 : ℚ
  x3 : ℚ
  y3 : ℚ
  x4 : ℚ
  y4 : ℚ
  deriving DecidableEq, Repr, Inhabited

/-- Clamping step of `calculate_obb_from_canvas` (`src/utils/obb.py` lines
73-74): `max(0.0, min(1.0, v))`. -/
def clamp01 (v : ℚ) : ℚ := max 0 (min 1 v)

/-- Pixel-space corners computed by `calculate_obb_from_canvas`
(`src/utils/obb.py` lines 30-68), before normalization and clamping:
half extents, derived center, the four local corner offsets listed
counter-clockwise starting top-left, each rotated by `(cos_a, sin_a)` and
translated to the center. -/
def obb_pixel_corners (left top width height cos_a sin_a scale_x scale_y : ℚ) :
    List (ℚ × ℚ) :=
  let actual_width := width * scale_x
  let actual_height := height * scale_y
  let half_w := actual_width / 2
  let half_h := actual_height / 2
  let center_x := left + half_w * cos_a - half_h * sin_a
  let center_y := top + half_w * sin_a + half_h * cos_a
  let corners_local : List (ℚ × ℚ) :=
    [(-half_w, -half_h), (-half_w, half_h), (half_w, half_h), (half_w, -half_h)]
  corners_local.map (fun c =>
    let rx := c.1 * cos_a - c.2 * sin_a
    let ry := c.1 * sin_a + c.2 * cos_a
    (center_x + rx, center_y + ry))

/-- Embedding of `calculate_obb_from_canvas` (`src/utils/obb.py` lines 6-86):
the pixel corners of `obb_pixel_corners`, each normalized by the canvas
dimensions and clamped to the unit interval, packed into `OBBCoordinates` in
order. The source's loop always yields exactly four corners; the fallback
match arm is unreachable. -/
def calculate_obb_from_canvas (left top width height cos_a sin_a scale_x scale_y
    canvas_width canvas_height : ℚ) : OBBCoordinates :=
  let corners := obb_pixel_corners left top width height cos_a sin_a scale_x scale_y
  let normalized := corners.map (fun c =>
    (clamp01 (c.1 / canvas_width), clamp01 (c.2 / canvas_height)))
  match normalized with
  | [p1, p2, p3, p4] =>
      { x1 := p1.1, y1 := p1.2, x2 := p2.1, y2 := p2.2
        x3 := p3.1, y3 := p3.2, x4 := p4.1, y4 := p4.2 }
  | _ => default

/-- Center of the rectangle as the spec derives it (spec §4.1 step 3):
rotate the half-extent offset and add it to `(left, top)`. -/
def spec_center (left top half_w half_h cos_a sin_a : ℚ) : ℚ × ℚ :=
  (left + half_w * cos_a - half_h * sin_a, top + half_w * sin_a + half_h * cos_a)

/-- Rotation of a local corner offset by `(cos_a, sin_a)` followed by
translation to the center: the spec's §4.1 steps 4-5, written from the spec's
wording for comparison with the source embedding. -/
def spec_rotate_about (c : ℚ × ℚ) (cos_a sin_a : ℚ) (o : ℚ × ℚ) : ℚ × ℚ :=
  (c.1 + (o.1 * cos_a - o.2 * sin_a), c.2 + (o.1 * sin_a + o.2 * cos_a))

/-- All eight coordinates of an OBB lie within the unit interval: the output
invariant the clamping step is meant to establish. -/
def obb_in_unit_box (o : OBBCoordinates) : Prop :=
  0 ≤ o.x1 ∧ o.x1 ≤ 1 ∧ 0 ≤ o.y1 ∧ o.y1 ≤ 1 ∧
  0 ≤ o.x2 ∧ o.x2 ≤ 1 ∧ 0 ≤ o.y2 ∧ o.y2 ≤ 1 ∧
  0 ≤ o.x3 ∧ o.x3 ≤ 1 ∧ 0 ≤ o.y3 ∧ o.y3 ≤ 1 ∧
  0 ≤ o.x4 ∧ o.x4 ≤ 1 ∧ 0 ≤ o.y4 ∧ o.y4 ≤ 1

/-- Modelled from the spec: the minimum pixel threshold used by `validateOBB`
(spec §4.1); the spec does not fix its numeric value, 10 pixels is used as a
concrete representative choice. -/
def MIN_BOX_SIZE : ℚ := 10

/-- Modelled from the spec: `validate_bounding_box` is imported by the
labelling page (`src/pages/1_🏷️_Meter_Labelling.py` line 22) from `utils.obb`
and called with a rectangle and the canvas dimensions (lines 411-428), but its
definition is not among the sources. Following the spec's `validateOBB`
contract (§4.1): effective width and height must each exceed a minimum pixel
threshold, the derived center must lie within the canvas bounds, and the box
must not be entirely outside the visible canvas after clamping (all four
corners clamped onto the same edge); each rejection returns a human-readable
reason identifying the failed check. -/
def validate_bounding_box (left top width height cos_a sin_a scale_x scale_y
    canvas_width canvas_height : ℚ) : Bool × String :=
  let actual_width := width * scale_x
  let actual_height := height * scale_y
  if actual_width ≤ MIN_BOX_SIZE then
    (false, "Bounding box width is below the minimum pixel size")
  else if actual_height ≤ MIN_BOX_SIZE then
    (false, "Bounding box height is below the minimum pixel size")
  else
    let half_w := actual_width / 2
    let half_h := actual_height / 2
    let center_x := left + half_w * cos_a - half_h * sin_a
    let center_y := top + half_w * sin_a + half_h * cos_a
    if center_x < 0 ∨ center_x > canvas_width ∨ center_y < 0 ∨ center_y > canvas_height then
      (false, "Bounding box center is outside the canvas")
    else
      let o := calculate_obb_from_canvas left top width height cos_a sin_a
        scale_x scale_y canvas_width canvas_height
      if (o.x1 = o.x2 ∧ o.x2 = o.x3 ∧ o.x3 = o.x4 ∧ (o.x1 = 0 ∨ o.x1 = 1)) ∨
         (o.y1 = o.y2 ∧ o.y2 = o.y3 ∧ o.y3 = o.y4 ∧ (o.y1 = 0 ∨ o.y1 = 1)) then
        (false, "Bounding box lies entirely outside the canvas")
      else
        (true, "")

/-- Class distribution model exactly as declared in
`src/utils/models/annotation.py` lines 180-196: the fields are
`cold_water_count`, `hot_water_count`, `electricity_count` and
`no_meter_count` (all defaulting to 0); the model declares no `water_count`
field. -/
structure ClassDistribution where
  cold_water_count : ℕ := 0
  hot_water_count : ℕ := 0
  electricity_count : ℕ := 0
  no_meter_count : ℕ := 0
  deriving DecidableEq, Repr

/-- The `total_images` property of `ClassDistribution`
(`src/utils/models/annotation.py` lines 188-196). -/
def ClassDistribution.total_images (d : ClassDistribution) : ℕ :=
  d.cold_water_count + d.hot_water_count + d.electricity_count + d.no_meter_count

/-- Counting loop body of `get_class_distribution` (`src/utils/database.py`
lines 60-70) for one annotation row: the accumulator is the triple
`(water_count, electricity_count, no_meter_count)`; an empty detection list
increments `no_meter_count`, otherwise each detection with `class_label` 0
increments `water_count` and each with `class_label` 1 increments
`electricity_count` (any other label increments nothing). -/
def tally_row (acc : ℕ × ℕ × ℕ) (detections : List ℕ) : ℕ × ℕ × ℕ :=
  if detections = [] then (acc.1, acc.2.1, acc.2.2 + 1)
  else detections.foldl (fun a class_label =>
    if class_label = 0 then (a.1 + 1, a.2.1, a.2.2)
    else if class_label = 1 then (a.1, a.2.1 + 1, a.2.2)
    else a) acc

/-- The `(water_count, electricity_count, no_meter_count)` tallies computed by
the loop of `get_class_distribution` over all stored annotation rows, each row
given as its list of detection class labels. -/
def class_tallies (rows : List (List ℕ)) : ℕ × ℕ × ℕ :=
  rows.foldl tally_row (0, 0, 0)

/-- Embedding of `get_class_distribution` (`src/utils/database.py` lines
46-76). The source ends with
`ClassDistribution(water_count=..., electricity_count=..., no_meter_count=...)`;
`ClassDistribution` declares no `water_count` field and pydantic's default
`extra = ignore` configuration silently drops unknown keyword arguments, so
the water tally never reaches the constructed model: `cold_water_count` and
`hot_water_count` keep their defaults of 0 and only `electricity_count` and
`no_meter_count` are set. -/
def get_class_distribution (rows : List (List ℕ)) : ClassDistribution :=
  { electricity_count := (class_tallies rows).2.1
    no_meter_count := (class_tallies rows).2.2 }

/-- The two meter classes of the sampling layer (`TARGET_DISTRIBUTION` keys in
`src/env_settings.py` lines 32-35). -/
inductive Utility
  | water
  | electricity
  deriving DecidableEq, Repr, Inhabited

/-- Embedding of `TARGET_DISTRIBUTION` from `src/env_settings.py` lines 32-35:
water 0.70, electricity 0.30. -/
def TARGET_DISTRIBUTION : Utility → ℚ
  | .water => 7 / 10
  | .electricity => 3 / 10

/-- Cumulative deficit-weighted pick: the final loop of
`select_target_utility_type` (`src/utils/database.py` lines 222-227), walking
the positive-deficit list in insertion order with a running cumulative sum and
returning the first entry whose cumulative sum reaches the draw. -/
def weighted_pick : List (Utility × ℚ) → ℚ → ℚ → Option Utility
  | [], _, _ => none
  | (u, d) :: rest, r, cumulative =>
      if r ≤ cumulative + d then some u else weighted_pick rest r (cumulative + d)

/-- Embedding of `select_target_utility_type` (`src/utils/database.py` lines
181-230). The source reads `distribution.water_count` and
`distribution.electricity_count` from its argument, so the embedding takes
those two tallies directly (on the `ClassDistribution` model actually
constructed by `get_class_distribution` the `water_count` attribute does not
exist - that mismatch is treated with the distribution tracker). `r` models the
`random.random()` draw of whichever branch executes, with `r ∈ [0,1)`. The
`positive` list keeps the Python dict's insertion order: water before
electricity. -/
def select_target_utility_type (water_count electricity_count : ℕ) (r : ℚ) :
    Utility :=
  let total := water_count + electricity_count
  if total = 0 then
    if r < TARGET_DISTRIBUTION .water then .water else .electricity
  else
    let current_water : ℚ := (water_count : ℚ) / (total : ℚ)
    let current_electricity : ℚ := (electricity_count : ℚ) / (total : ℚ)
    let deficit_water := TARGET_DISTRIBUTION .water - current_water
    let deficit_electricity := TARGET_DISTRIBUTION .electricity - current_electricity
    let positive : List (Utility × ℚ) :=
      (if 0 < deficit_water then [(Utility.water, deficit_water)] else []) ++
        (if 0 < deficit_electricity then [(Utility.electricity, deficit_electricity)] else [])
    if positive = [] then
      if r < TARGET_DISTRIBUTION .water then .water else .electricity
    else
      let total_deficit := (positive.map Prod.snd).sum
      match weighted_pick positive (r * total_deficit) 0 with
      | some u => u
      | none => positive.headI.1

/-- One candidate row of a client's `meter_readings`/`meter_history` join
(`src/utils/database.py` lines 325-343), projected to the two fields the
sampling claims depend on: the reading id (`mr.id AS reading_id`) and the raw
utility type string (`mh.utility_type`). -/
structure SourceRow where
  reading_id : ℕ
  utility_type : String
  deriving DecidableEq, Repr

/-- Utility-type filter of the query (`src/utils/database.py` lines 314-323):
"water" keeps cold_water and hot_water rows, "electricity" keeps electricity
rows, any other value (in particular `None`) keeps all three raw types. -/
def utility_filter_ok (utility_type : Option String) (row : SourceRow) : Bool :=
  if utility_type = some "water" then
    row.utility_type == "cold_water" || row.utility_type == "hot_water"
  else if utility_type = some "electricity" then
    row.utility_type == "electricity"
  else
    row.utility_type == "cold_water" || row.utility_type == "hot_water" ||
      row.utility_type == "electricity"

/-- Exclusion clause of the query (`src/utils/database.py` lines 309-312):
`excluded` is `list(excluded_ids)` in its Python iteration order, and the
`NOT IN` list receives only its first 10000 entries
(`list(excluded_ids)[:10000]`). A reading passes when its id is not among
those first 10000 entries. -/
def passes_exclusion (excluded : List ℕ) (reading_id : ℕ) : Bool :=
  !((excluded.take 10000).contains reading_id)

/-- Rows of a client table satisfying the query's WHERE clause: the utility
filter together with the capped exclusion clause. -/
def eligible_rows (utility_type : Option String) (excluded : List ℕ)
    (rows : List SourceRow) : List SourceRow :=
  rows.filter (fun row => utility_filter_ok utility_type row &&
    passes_exclusion excluded row.reading_id)

/-- Embedding of `fetch_reading_from_client` (`src/utils/database.py` lines
290-366): the query returns one random eligible row or none;
`ORDER BY RAND() LIMIT 1` is modelled by the pick index into the eligible
rows (any eligible row is reachable by some pick). -/
def fetch_reading_from_client (utility_type : Option String) (excluded : List ℕ)
    (rows : List SourceRow) (pick : ℕ) : Option SourceRow :=
  (eligible_rows utility_type excluded rows).get? pick

/-- One persisted row of the local `annotations` table, projected to the
fields the sampling layer reads back: originating client, source reading id,
and the stored detection class labels. -/
structure AnnotationRow where
  source_client : String
  source_reading_id : ℕ
  detections : List ℕ
  deriving DecidableEq, Repr

/-- Embedding of `get_all_annotated_reading_ids` (`src/utils/database.py`
lines 162-178) read off for one client: the reading ids of that client's
stored annotations (the Python set of ids is modelled by the id list in row
order, which is also the iteration order the exclusion cap truncates). -/
def get_all_annotated_ids (db : List AnnotationRow) (client : String) : List ℕ :=
  (db.filter (fun a => a.source_client == client)).map (fun a => a.source_reading_id)

/-- A source client together with its queryable rows: one entry of
`SOURCE_CLIENTS` (`src/env_settings.py`) with the content of its database. -/
structure ClientDB where
  name : String
  rows : List SourceRow
  deriving DecidableEq, Repr

/-- The string the source passes as utility-type filter for a selected target
class (`fetch_random_reading` passes `target_utility`, one of "water" or
"electricity"). -/
def utility_name : Utility → String
  | .water => "water"
  | .electricity => "electricity"

/-- One pass of the client loop of `fetch_random_reading`
(`src/utils/database.py` lines 262-272, and 275-285 for the fallback pass):
try each client in the given, already shuffled, order with its annotated ids
as exclusions; the first client whose query returns a row wins. -/
def first_hit (utility_type : Option String) (db : List AnnotationRow) :
    List ClientDB → ℕ → Option (SourceRow × String)
  | [], _ => none
  | c :: rest, pick =>
      match fetch_reading_from_client utility_type
          (get_all_annotated_ids db c.name) c.rows pick with
      | some row => some (row, c.name)
      | none => first_hit utility_type db rest pick

/-- Embedding of `fetch_random_reading` (`src/utils/database.py` lines
242-287): compute the distribution tallies from the stored annotations,
select the target utility type, scan the shuffled clients for that type, then
fall back to a scan with no type filter. `clients` is the shuffled
`clients_to_try`, `r` the selector's random draw, `pick` the query
randomness. The selector is fed the water/electricity tallies the counting
loop computed; the `water_count` attribute mismatch of the constructed
distribution model is recorded separately with the distribution tracker. -/
def fetch_random_reading (db : List AnnotationRow) (clients : List ClientDB)
    (r : ℚ) (pick : ℕ) : Option (SourceRow × String) :=
  let t := class_tallies (db.map (fun a => a.detections))
  let target := select_target_utility_type t.1 t.2.1 r
  match first_hit (some (utility_name target)) db clients pick with
  | some res => some res
  | none => first_hit none db clients pick

/-- Result state of one `load_new_image` call
(`src/pages/1_🏷️_Meter_Labelling.py` lines 160-209): the page error message or
the loaded record with its client, the call-local `failed_readings` list, and,
as instrumentation for the analysis, the records whose download was actually
attempted and the records the sampling policy offered. -/
structure LoadOutcome where
  error : Option String
  loaded : Option (ℕ × String)
  failed_readings : List (ℕ × String)
  downloads : List (ℕ × String)
  offers : List (ℕ × String)
  deriving DecidableEq, Repr

/-- The retry loop of `load_new_image` (`src/pages/1_🏷️_Meter_Labelling.py`
lines 173-209). `fetch i` is the result of the call of
`fetch_random_reading()` on attempt `i`: the source calls it with no arguments
(line 174), so the call-local `failed_readings` list is never passed to the
sampling policy - its results depend only on the database state (unchanged
during the loop) and fresh randomness. `download_ok i rc` tells whether the
image download of record `rc` succeeds on attempt `i`. A record already in
`failed_readings` is skipped without a new download attempt but still
consumes the attempt (lines 183-184); a failed download appends the record to
`failed_readings` and loops (lines 203-205); a successful download returns
the record (lines 198-201); an exhausted loop reports the attempts error
(lines 207-209) and a `None` from the policy reports the no-more-images error
at once (lines 176-178). -/
def load_loop (fetch : ℕ → Option (ℕ × String))
    (download_ok : ℕ → ℕ × String → Bool) :
    ℕ → ℕ → List (ℕ × String) → List (ℕ × String) → List (ℕ × String) →
      LoadOutcome
  | 0, _, failed, dls, offs =>
      { error := some "Failed to load image after 5 attempts.", loaded := none
        failed_readings := failed, downloads := dls, offers := offs }
  | fuel + 1, i, failed, dls, offs =>
      match fetch i with
      | none =>
          { error := some "No more images available to annotate.", loaded := none
            failed_readings := failed, downloads := dls, offers := offs }
      | some rc =>
          if rc ∈ failed then
            load_loop fetch download_ok fuel (i + 1) failed dls (offs ++ [rc])
          else if download_ok i rc then
            { error := none, loaded := some rc, failed_readings := failed
              downloads := dls ++ [rc], offers := offs ++ [rc] }
          else
            load_loop fetch download_ok fuel (i + 1) (failed ++ [rc])
              (dls ++ [rc]) (offs ++ [rc])

/-- Embedding of `load_new_image` (`src/pages/1_🏷️_Meter_Labelling.py` lines 160-209) with
its `max_attempts = 5` and initially empty `failed_readings`. -/
def load_new_image (fetch : ℕ → Option (ℕ × String))
    (download_ok : ℕ → ℕ × String → Bool) : LoadOutcome :=
  load_loop fetch download_ok 5 0 [] [] []

/-- Embedding of `OBBCoordinates.to_list` (`src/utils/models/annotation.py` lines 62-64):
the eight coordinates in x1 y1 x2 y2 x3 y3 x4 y4 order. -/
def OBBCoordinates.to_list (o : OBBCoordinates) : List ℚ :=
  [o.x1, o.y1, o.x2, o.y2, o.x3, o.y3, o.x4, o.y4]

/-- Embedding of `OBBCoordinates.from_list` (`src/utils/models/annotation.py` lines 66-78):
reads indices 0-7 of the list. Python raises IndexError on a shorter list;
the embedding returns the default on that unreachable-for-round-trip arm. -/
def OBBCoordinates.from_list : List ℚ → OBBCoordinates
  | x1 :: y1 :: x2 :: y2 :: x3 :: y3 :: x4 :: y4 :: _ =>
      { x1 := x1, y1 := y1, x2 := x2, y2 := y2
        x3 := x3, y3 := y3, x4 := x4, y4 := y4 }
  | _ => default

/-- Embedding of `Detection` (`src/utils/models/annotation.py` lines 81-103): class label
(the source restricts it to the literals 0, 1, 2; the embedding carries any
natural number, a superset), OBB, and the optional whole-number annotator
reading. -/
structure Detection where
  class_label : ℕ
  obb : OBBCoordinates
  annotator_reading : Option ℤ
  deriving DecidableEq, Repr

/-- Serialized form of one detection: the dict produced by
`Detection.to_dict` and written by `json.dumps`
(`src/utils/models/annotation.py` lines 88-94). The JSON text layer is
modelled by this structured value: `json.dumps` and `json.loads` are mutually
inverse between such dicts and their JSON strings (ints, exact floats and
null round-trip through Python's JSON codec). -/
structure DetectionDict where
  class_label : ℕ
  obb : List ℚ
  annotator_reading : Option ℤ
  deriving DecidableEq, Repr

/-- Embedding of `Detection.to_dict` (`src/utils/models/annotation.py` lines 88-94). -/
def Detection.to_dict (d : Detection) : DetectionDict :=
  { class_label := d.class_label, obb := d.obb.to_list
    annotator_reading := d.annotator_reading }

/-- Embedding of `Detection.from_dict` (`src/utils/models/annotation.py` lines 96-103):
`data.get("annotator_reading")` yields the stored optional value (the key is
always present in a dict written by `to_dict`). -/
def Detection.from_dict (dd : DetectionDict) : Detection :=
  { class_label := dd.class_label, obb := OBBCoordinates.from_list dd.obb
    annotator_reading := dd.annotator_reading }

/-- Embedding of `Annotation.detections_to_json` (`src/utils/models/annotation.py` lines
129-133): serialize each detection with `to_dict`. -/
def detections_to_json (ds : List Detection) : List DetectionDict :=
  ds.map Detection.to_dict

/-- Embedding of `Annotation.detections_from_json` (`src/utils/models/annotation.py` lines
135-141): deserialize each stored dict with `from_dict`. -/
def detections_from_json (dds : List DetectionDict) : List Detection :=
  dds.map Detection.from_dict

/-! ## Lemmas and claim theorems -/

lemma clamp01_nonneg (v : ℚ) : 0 ≤ clamp01 v := le_max_left 0 _

lemma clamp01_le_one (v : ℚ) : clamp01 v ≤ 1 :=
  max_le (by norm_num) (min_le_left 1 v)

lemma clamp01_of_mem (v : ℚ) (h0 : 0 ≤ v) (h1 : v ≤ 1) : clamp01 v = v := by
  unfold clamp01
  rw [min_eq_right h1, max_eq_right h0]

/-- Closed form of the transform: each output coordinate is the clamped
normalized coordinate of the corresponding rotated corner. -/
lemma calculate_obb_explicit (left top width height cos_a sin_a scale_x scale_y
    cw ch : ℚ) :
    calculate_obb_from_canvas left top width height cos_a sin_a scale_x scale_y cw ch =
      { x1 := clamp01 (left / cw)
        y1 := clamp01 (top / ch)
        x2 := clamp01 ((left - height * scale_y * sin_a) / cw)
        y2 := clamp01 ((top + height * scale_y * cos_a) / ch)
        x3 := clamp01 ((left + width * scale_x * cos_a - height * scale_y * sin_a) / cw)
        y3 := clamp01 ((top + width * scale_x * sin_a + height * scale_y * cos_a) / ch)
        x4 := clamp01 ((left + width * scale_x * cos_a) / cw)
        y4 := clamp01 ((top + width * scale_x * sin_a) / ch) } := by
  simp only [calculate_obb_from_canvas, obb_pixel_corners, List.map_cons, List.map_nil,
    OBBCoordinates.mk.injEq]
  refine ⟨?_, ?_, ?_, ?_, ?_, ?_, ?_, ?_⟩ <;> · congr 1; ring

/-- The pixel corners of the source transform are exactly the spec's four
rotated offsets, in the spec's counter-clockwise-from-top-left order. -/
lemma obb_pixel_corners_are_spec_corners (left top width height cos_a sin_a
    scale_x scale_y : ℚ) :
    obb_pixel_corners left top width height cos_a sin_a scale_x scale_y =
      [spec_rotate_about (spec_center left top (width * scale_x / 2) (height * scale_y / 2) cos_a sin_a)
         cos_a sin_a (-(width * scale_x / 2), -(height * scale_y / 2)),
       spec_rotate_about (spec_center left top (width * scale_x / 2) (height * scale_y / 2) cos_a sin_a)
         cos_a sin_a (-(width * scale_x / 2), height * scale_y / 2),
       spec_rotate_about (spec_center left top (width * scale_x / 2) (height * scale_y / 2) cos_a sin_a)
         cos_a sin_a (width * scale_x / 2, height * scale_y / 2),
       spec_rotate_about (spec_center left top (width * scale_x / 2) (height * scale_y / 2) cos_a sin_a)
         cos_a sin_a (width * scale_x / 2, -(height * scale_y / 2))] := by
  simp only [obb_pixel_corners, spec_center, spec_rotate_about, List.map_cons, List.map_nil]

/-- The returned OBB is the clamped normalization of the spec's four corners,
kept in the same order. -/
lemma calculate_obb_is_clamped_spec_corners (left top width height cos_a sin_a
    scale_x scale_y cw ch : ℚ) :
    calculate_obb_from_canvas left top width height cos_a sin_a scale_x scale_y cw ch =
      { x1 := clamp01 ((spec_rotate_about (spec_center left top (width * scale_x / 2) (height * scale_y / 2) cos_a sin_a) cos_a sin_a (-(width * scale_x / 2), -(height * scale_y / 2))).1 / cw)
        y1 := clamp01 ((spec_rotate_about (spec_center left top (width * scale_x / 2) (height * scale_y / 2) cos_a sin_a) cos_a sin_a (-(width * scale_x / 2), -(height * scale_y / 2))).2 / ch)
        x2 := clamp01 ((spec_rotate_about (spec_center left top (width * scale_x / 2) (height * scale_y / 2) cos_a sin_a) cos_a sin_a (-(width * scale_x / 2), height * scale_y / 2)).1 / cw)
        y2 := clamp01 ((spec_rotate_about (spec_center left top (width * scale_x / 2) (height * scale_y / 2) cos_a sin_a) cos_a sin_a (-(width * scale_x / 2), height * scale_y / 2)).2 / ch)
        x3 := clamp01 ((spec_rotate_about (spec_center left top (width * scale_x / 2) (height * scale_y / 2) cos_a sin_a) cos_a sin_a (width * scale_x / 2, height * scale_y / 2)).1 / cw)
        y3 := clamp01 ((spec_rotate_about (spec_center left top (width * scale_x / 2) (height * scale_y / 2) cos_a sin_a) cos_a sin_a (width * scale_x / 2, height * scale_y / 2)).2 / ch)
        x4 := clamp01 ((spec_rotate_about (spec_center left top (width * scale_x / 2) (height * scale_y / 2) cos_a sin_a) cos_a sin_a (width * scale_x / 2, -(height * scale_y / 2))).1 / cw)
        y4 := clamp01 ((spec_rotate_about (spec_center left top (width * scale_x / 2) (height * scale_y / 2) cos_a sin_a) cos_a sin_a (width * scale_x / 2, -(height * scale_y / 2))).2 / ch) } := by
  rw [calculate_obb_explicit]
  simp only [spec_rotate_about, spec_center, OBBCoordinates.mk.injEq]
  refine ⟨?_, ?_, ?_, ?_, ?_, ?_, ?_, ?_⟩ <;> · congr 1; ring

/-- C1: for every rectangle descriptor, the OBB transform lists its four
corners counter-clockwise starting at the logical top-left of the un-rotated
rectangle: before clamping, corners 1-4 are the images of the local offsets
(-halfW,-halfH), (-halfW,+halfH), (+halfW,+halfH), (+halfW,-halfH) under the
rotation (given through its cosine and sine, covering every angle) about the
derived center, and the returned OBB is exactly these four corners normalized
and clamped, in this order. Stated for all canvas dimensions, hence in
particular for positive ones. -/
theorem obb_corners_ccw_from_top_left (left top width height cos_a sin_a
    scale_x scale_y cw ch : ℚ) :
    (obb_pixel_corners left top width height cos_a sin_a scale_x scale_y =
      [spec_rotate_about (spec_center left top (width * scale_x / 2) (height * scale_y / 2) cos_a sin_a)
         cos_a sin_a (-(width * scale_x / 2), -(height * scale_y / 2)),
       spec_rotate_about (spec_center left top (width * scale_x / 2) (height * scale_y / 2) cos_a sin_a)
         cos_a sin_a (-(width * scale_x / 2), height * scale_y / 2),
       spec_rotate_about (spec_center left top (width * scale_x / 2) (height * scale_y / 2) cos_a sin_a)
         cos_a sin_a (width * scale_x / 2, height * scale_y / 2),
       spec_rotate_about (spec_center left top (width * scale_x / 2) (height * scale_y / 2) cos_a sin_a)
         cos_a sin_a (width * scale_x / 2, -(height * scale_y / 2))]) ∧
    calculate_obb_from_canvas left top width height cos_a sin_a scale_x scale_y cw ch =
      { x1 := clamp01 ((spec_rotate_about (spec_center left top (width * scale_x / 2) (height * scale_y / 2) cos_a sin_a) cos_a sin_a (-(width * scale_x / 2), -(height * scale_y / 2))).1 / cw)
        y1 := clamp01 ((spec_rotate_about (spec_center left top (width * scale_x / 2) (height * scale_y / 2) cos_a sin_a) cos_a sin_a (-(width * scale_x / 2), -(height * scale_y / 2))).2 / ch)
        x2 := clamp01 ((spec_rotate_about (spec_center left top (width * scale_x / 2) (height * scale_y / 2) cos_a sin_a) cos_a sin_a (-(width * scale_x / 2), height * scale_y / 2)).1 / cw)
        y2 := clamp01 ((spec_rotate_about (spec_center left top (width * scale_x / 2) (height * scale_y / 2) cos_a sin_a) cos_a sin_a (-(width * scale_x / 2), height * scale_y / 2)).2 / ch)
        x3 := clamp01 ((spec_rotate_about (spec_center left top (width * scale_x / 2) (height * scale_y / 2) cos_a sin_a) cos_a sin_a (width * scale_x / 2, height * scale_y / 2)).1 / cw)
        y3 := clamp01 ((spec_rotate_about (spec_center left top (width * scale_x / 2) (height * scale_y / 2) cos_a sin_a) cos_a sin_a (width * scale_x / 2, height * scale_y / 2)).2 / ch)
        x4 := clamp01 ((spec_rotate_about (spec_center left top (width * scale_x / 2) (height * scale_y / 2) cos_a sin_a) cos_a sin_a (width * scale_x / 2, -(height * scale_y / 2))).1 / cw)
        y4 := clamp01 ((spec_rotate_about (spec_center left top (width * scale_x / 2) (height * scale_y / 2) cos_a sin_a) cos_a sin_a (width * scale_x / 2, -(height * scale_y / 2))).2 / ch) } :=
  ⟨obb_pixel_corners_are_spec_corners left top width height cos_a sin_a scale_x scale_y,
   calculate_obb_is_clamped_spec_corners left top width height cos_a sin_a scale_x scale_y cw ch⟩

/-- C2: with angle = 0 (exact trig pair (1,0), since math.cos(0.0) = 1.0 and
math.sin(0.0) = 0.0 exactly), the transform returns exactly the axis-aligned
corners (left, top), (left, top + height*scaleY),
(left + width*scaleX, top + height*scaleY), (left + width*scaleX, top), each
divided by the canvas dimensions and clamped to the unit interval. -/
theorem obb_angle_zero_axis_aligned (left top width height scale_x scale_y
    cw ch : ℚ) :
    calculate_obb_from_canvas left top width height 1 0 scale_x scale_y cw ch =
      { x1 := clamp01 (left / cw)
        y1 := clamp01 (top / ch)
        x2 := clamp01 (left / cw)
        y2 := clamp01 ((top + height * scale_y) / ch)
        x3 := clamp01 ((left + width * scale_x) / cw)
        y3 := clamp01 ((top + height * scale_y) / ch)
        x4 := clamp01 ((left + width * scale_x) / cw)
        y4 := clamp01 (top / ch) } := by
  rw [calculate_obb_explicit]
  simp only [OBBCoordinates.mk.injEq]
  refine ⟨?_, ?_, ?_, ?_, ?_, ?_, ?_, ?_⟩ <;> first
    | trivial
    | (congr 1; ring)

/-- C3: all eight output coordinates of the transform lie in the unit
interval, for every input (in particular for rectangles far outside the
canvas): out-of-canvas corners are truncated at the edge by the clamp, never
rejected. -/
theorem obb_coords_always_in_unit_interval (left top width height cos_a sin_a
    scale_x scale_y cw ch : ℚ) :
    obb_in_unit_box
      (calculate_obb_from_canvas left top width height cos_a sin_a scale_x scale_y cw ch) := by
  rw [obb_in_unit_box, calculate_obb_explicit]
  exact ⟨clamp01_nonneg _, clamp01_le_one _, clamp01_nonneg _, clamp01_le_one _,
    clamp01_nonneg _, clamp01_le_one _, clamp01_nonneg _, clamp01_le_one _,
    clamp01_nonneg _, clamp01_le_one _, clamp01_nonneg _, clamp01_le_one _,
    clamp01_nonneg _, clamp01_le_one _, clamp01_nonneg _, clamp01_le_one _⟩

/-- C4: the validator returns a `(isValid, reason)` pair such that a rectangle
whose effective width or height does not exceed the minimum pixel threshold is
rejected, one whose center lies outside the canvas is rejected, one entirely
outside the visible canvas after clamping is rejected, every rejection carries
a nonempty reason naming the failed condition, and a rectangle at
threshold + ε is accepted. -/
theorem validate_bounding_box_checks (left top width height cos_a sin_a
    scale_x scale_y cw ch : ℚ) :
    (width * scale_x ≤ MIN_BOX_SIZE →
      validate_bounding_box left top width height cos_a sin_a scale_x scale_y cw ch =
        (false, "Bounding box width is below the minimum pixel size")) ∧
    (MIN_BOX_SIZE < width * scale_x → height * scale_y ≤ MIN_BOX_SIZE →
      validate_bounding_box left top width height cos_a sin_a scale_x scale_y cw ch =
        (false, "Bounding box height is below the minimum pixel size")) ∧
    (MIN_BOX_SIZE < width * scale_x → MIN_BOX_SIZE < height * scale_y →
      (left + width * scale_x / 2 * cos_a - height * scale_y / 2 * sin_a < 0 ∨
       left + width * scale_x / 2 * cos_a - height * scale_y / 2 * sin_a > cw ∨
       top + width * scale_x / 2 * sin_a + height * scale_y / 2 * cos_a < 0 ∨
       top + width * scale_x / 2 * sin_a + height * scale_y / 2 * cos_a > ch) →
      validate_bounding_box left top width height cos_a sin_a scale_x scale_y cw ch =
        (false, "Bounding box center is outside the canvas")) ∧
    (MIN_BOX_SIZE < width * scale_x → MIN_BOX_SIZE < height * scale_y →
      ¬(left + width * scale_x / 2 * cos_a - height * scale_y / 2 * sin_a < 0 ∨
        left + width * scale_x / 2 * cos_a - height * scale_y / 2 * sin_a > cw ∨
        top + width * scale_x / 2 * sin_a + height * scale_y / 2 * cos_a < 0 ∨
        top + width * scale_x / 2 * sin_a + height * scale_y / 2 * cos_a > ch) →
      ((calculate_obb_from_canvas left top width height cos_a sin_a scale_x scale_y cw ch).x1 =
          (calculate_obb_from_canvas left top width height cos_a sin_a scale_x scale_y cw ch).x2 ∧
        (calculate_obb_from_canvas left top width height cos_a sin_a scale_x scale_y cw ch).x2 =
          (calculate_obb_from_canvas left top width height cos_a sin_a scale_x scale_y cw ch).x3 ∧
        (calculate_obb_from_canvas left top width height cos_a sin_a scale_x scale_y cw ch).x3 =
          (calculate_obb_from_canvas left top width height cos_a sin_a scale_x scale_y cw ch).x4 ∧
        ((calculate_obb_from_canvas left top width height cos_a sin_a scale_x scale_y cw ch).x1 = 0 ∨
         (calculate_obb_from_canvas left top width height cos_a sin_a scale_x scale_y cw ch).x1 = 1)) ∨
       ((calculate_obb_from_canvas left top width height cos_a sin_a scale_x scale_y cw ch).y1 =
          (calculate_obb_from_canvas left top width height cos_a sin_a scale_x scale_y cw ch).y2 ∧
        (calculate_obb_from_canvas left top width height cos_a sin_a scale_x scale_y cw ch).y2 =
          (calculate_obb_from_canvas left top width height cos_a sin_a scale_x scale_y cw ch).y3 ∧
        (calculate_obb_from_canvas left top width height cos_a sin_a scale_x scale_y cw ch).y3 =
          (calculate_obb_from_canvas left top width height cos_a sin_a scale_x scale_y cw ch).y4 ∧
        ((calculate_obb_from_canvas left top width height cos_a sin_a scale_x scale_y cw ch).y1 = 0 ∨
         (calculate_obb_from_canvas left top width height cos_a sin_a scale_x scale_y cw ch).y1 = 1)) →
      validate_bounding_box left top width height cos_a sin_a scale_x scale_y cw ch =
        (false, "Bounding box lies entirely outside the canvas")) ∧
    ((validate_bounding_box left top width height cos_a sin_a scale_x scale_y cw ch).1 = false →
      (validate_bounding_box left top width height cos_a sin_a scale_x scale_y cw ch).2 ≠ "") ∧
    (∀ ε : ℚ, 0 < ε → ε ≤ 400 →
      validate_bounding_box 100 100 (MIN_BOX_SIZE + ε) (MIN_BOX_SIZE + ε) 1 0 1 1 800 600 =
        (true, "")) := by
  refine ⟨?_, ?_, ?_, ?_, ?_, ?_⟩
  · intro hw
    simp only [validate_bounding_box]
    rw [if_pos hw]
  · intro hw hh
    simp only [validate_bounding_box]
    rw [if_neg (not_le.mpr hw), if_pos hh]
  · intro hw hh hc
    simp only [validate_bounding_box]
    rw [if_neg (not_le.mpr hw), if_neg (not_le.mpr hh), if_pos hc]
  · intro hw hh hc ho
    simp only [validate_bounding_box]
    rw [if_neg (not_le.mpr hw), if_neg (not_le.mpr hh), if_neg hc, if_pos ho]
  · intro hfalse
    simp only [validate_bounding_box] at hfalse ⊢
    split_ifs at hfalse ⊢ <;> simp_all
  · intro ε hε hε400
    simp only [validate_bounding_box, MIN_BOX_SIZE, mul_one, mul_zero, sub_zero, add_zero]
    rw [if_neg (by linarith : ¬(10 + ε ≤ 10)), if_neg (by linarith : ¬(10 + ε ≤ 10)),
      if_neg (by push_neg; refine ⟨by linarith, by linarith, by linarith, by linarith⟩)]
    rw [if_neg]
    rw [calculate_obb_explicit]
    dsimp only
    rintro (⟨-, -, -, h01⟩ | ⟨-, -, -, h01⟩)
    · rcases h01 with h | h <;> norm_num [clamp01] at h
    · rcases h01 with h | h <;> norm_num [clamp01] at h

/-- Witness for C4: a 5-by-5 box is rejected for width, and an 11-by-11 box at
the canvas center is accepted. -/
theorem validate_bounding_box_checks_witness :
    validate_bounding_box 0 0 5 5 1 0 1 1 800 600 =
      (false, "Bounding box width is below the minimum pixel size") ∧
    validate_bounding_box 100 100 (MIN_BOX_SIZE + 1) (MIN_BOX_SIZE + 1) 1 0 1 1 800 600 =
      (true, "") :=
  ⟨(validate_bounding_box_checks 0 0 5 5 1 0 1 1 800 600).1 (by norm_num [MIN_BOX_SIZE]),
   (validate_bounding_box_checks 0 0 5 5 1 0 1 1 800 600).2.2.2.2.2 1 (by norm_num) (by norm_num)⟩

/-- C5 (code-bug evidence): on the spec's own example - 3 water detections,
1 electricity detection and 2 no-meter annotations - the counting loop of
`get_class_distribution` tallies (water 3, electricity 1, no-meter 2), but the
constructed `ClassDistribution` silently loses the water tally (the model has
no `water_count` field, and pydantic drops the unknown keyword argument), so
`total_images` evaluates to 3 rather than the claimed 6 and no field of the
result records the 3 water detections. -/
theorem get_class_distribution_drops_water_count :
    class_tallies [[0], [0], [0], [1], [], []] = (3, 1, 2) ∧
    get_class_distribution [[0], [0], [0], [1], [], []] =
      { cold_water_count := 0, hot_water_count := 0
        electricity_count := 1, no_meter_count := 2 } ∧
    (get_class_distribution [[0], [0], [0], [1], [], []]).total_images = 3 :=
  ⟨by decide, by decide, by decide⟩

/-- C6: with target ratios water 0.7 / electricity 0.3 and current counts
water 7, electricity 0 (total 7), the selector returns electricity for every
random draw r in [0,1): water's deficit 0.7 - 1 is negative, electricity's
deficit 0.3 - 0 is the only positive one, and the deficit-weighted pick over
the singleton positive-deficit list always lands on it. -/
theorem selector_picks_electricity_with_probability_one (r : ℚ)
    (h0 : 0 ≤ r) (h1 : r < 1) :
    select_target_utility_type 7 0 r = Utility.electricity := by
  simp only [select_target_utility_type, TARGET_DISTRIBUTION]
  norm_num
  rw [weighted_pick, if_pos (by linarith : r * (3 / 10) ≤ 0 + 3 / 10)]

/-- Witness for C6: the selector applied at the concrete draw r = 1/2. -/
theorem selector_picks_electricity_witness :
    (0 : ℚ) ≤ 1 / 2 ∧ (1 / 2 : ℚ) < 1 ∧
    select_target_utility_type 7 0 (1 / 2) = Utility.electricity :=
  ⟨by norm_num, by norm_num,
   selector_picks_electricity_with_probability_one (1 / 2) (by norm_num) (by norm_num)⟩

/-- A reading returned by the client query passed the exclusion clause, so
whenever the excluded list fits entirely inside the 10000-entry cap its id is
not an excluded id. -/
lemma fetch_reading_respects_exclusion (utility_type : Option String)
    (excluded : List ℕ) (rows : List SourceRow) (pick : ℕ) (row : SourceRow)
    (hlen : excluded.length ≤ 10000)
    (hfetch : fetch_reading_from_client utility_type excluded rows pick = some row) :
    row.reading_id ∉ excluded := by
  intro hmem
  have hrow : row ∈ eligible_rows utility_type excluded rows := List.get?_mem hfetch
  have hcond := List.of_mem_filter hrow
  rw [Bool.and_eq_true] at hcond
  have hexcl := hcond.2
  rw [passes_exclusion, List.take_of_length_le hlen] at hexcl
  simp at hexcl
  exact hexcl hmem

/-- A hit of the client loop names a client from the scanned list and comes
from that client's query run against that client's annotated ids. -/
lemma first_hit_from_client (utility_type : Option String)
    (db : List AnnotationRow) (clients : List ClientDB) (pick : ℕ)
    (row : SourceRow) (client : String)
    (h : first_hit utility_type db clients pick = some (row, client)) :
    ∃ c ∈ clients, c.name = client ∧
      fetch_reading_from_client utility_type (get_all_annotated_ids db c.name)
        c.rows pick = some row := by
  induction clients with
  | nil => simp [first_hit] at h
  | cons c rest ih =>
      rw [first_hit] at h
      cases hq : fetch_reading_from_client utility_type
          (get_all_annotated_ids db c.name) c.rows pick with
      | some row0 =>
          rw [hq] at h
          simp only [Option.some.injEq, Prod.mk.injEq] at h
          exact ⟨c, List.mem_cons_self c rest, h.2, by rw [hq, h.1]⟩
      | none =>
          rw [hq] at h
          obtain ⟨c', hc', hname, hf⟩ := ih h
          exact ⟨c', List.mem_cons_of_mem c hc', hname, hf⟩

/-- A result of `fetch_random_reading` comes from one of its two `first_hit`
passes (target-filtered or unfiltered fallback). -/
lemma fetch_random_reading_from_first_hit (db : List AnnotationRow)
    (clients : List ClientDB) (r : ℚ) (pick : ℕ) (res : SourceRow × String)
    (h : fetch_random_reading db clients r pick = some res) :
    ∃ ut, first_hit ut db clients pick = some res := by
  rw [fetch_random_reading] at h
  cases hfh : first_hit (some (utility_name (select_target_utility_type
      (class_tallies (db.map (fun a => a.detections))).1
      (class_tallies (db.map (fun a => a.detections))).2.1 r))) db clients pick with
  | some res0 =>
      rw [hfh] at h
      simp only [Option.some.injEq] at h
      exact ⟨_, hfh.trans (by rw [h])⟩
  | none =>
      rw [hfh] at h
      exact ⟨none, h⟩

/-- C7 counterexample: the claim fails beyond the 10000-id cap. With 10001
already-annotated reading ids 0..10000 passed as exclusions, the capped
`NOT IN` list drops the last id, and the query returns the already-annotated
reading 10000 again. -/
theorem fetch_reading_cap_counterexample :
    (10000 ∈ List.range 10001) ∧
    fetch_reading_from_client (some "water") (List.range 10001)
      [{ reading_id := 10000, utility_type := "cold_water" }] 0 =
      some { reading_id := 10000, utility_type := "cold_water" } := by
  constructor
  · exact List.mem_range.mpr (by norm_num)
  · have hcap : (List.range 10001).take 10000 = List.range 10000 := by
      rw [List.take_range]
      norm_num
    simp [fetch_reading_from_client, eligible_rows, utility_filter_ok,
      passes_exclusion, hcap]

/-- C7 amended: as long as every client's annotated-id list fits inside the
10000-entry cap of the query's `NOT IN` list, a reading already annotated for
its originating client is never returned again by `fetch_random_reading`. -/
theorem fetch_random_reading_no_duplicate_under_cap (db : List AnnotationRow)
    (clients : List ClientDB) (r : ℚ) (pick : ℕ) (row : SourceRow)
    (client : String)
    (hcap : ∀ c ∈ clients, (get_all_annotated_ids db c.name).length ≤ 10000)
    (h : fetch_random_reading db clients r pick = some (row, client)) :
    row.reading_id ∉ get_all_annotated_ids db client := by
  obtain ⟨ut, hfh⟩ := fetch_random_reading_from_first_hit db clients r pick _ h
  obtain ⟨c, hc, hname, hf⟩ := first_hit_from_client ut db clients pick row client hfh
  rw [← hname]
  exact fetch_reading_respects_exclusion ut _ c.rows pick row (hcap c hc) hf

/-- Witness for C7 (amended): one client with one annotated reading (id 5) and
one fresh reading (id 7); the fetch returns reading 7, which is not among the
client's annotated ids. -/
theorem fetch_random_reading_no_duplicate_witness :
    (∀ c ∈ [ClientDB.mk "Huurkor"
        [{ reading_id := 5, utility_type := "cold_water" },
         { reading_id := 7, utility_type := "cold_water" }]],
      (get_all_annotated_ids [⟨"Huurkor", 5, [0]⟩] c.name).length ≤ 10000) ∧
    fetch_random_reading [⟨"Huurkor", 5, [0]⟩]
      [ClientDB.mk "Huurkor"
        [{ reading_id := 5, utility_type := "cold_water" },
         { reading_id := 7, utility_type := "cold_water" }]] (1 / 2) 0 =
      some ({ reading_id := 7, utility_type := "cold_water" }, "Huurkor") ∧
    (7 : ℕ) ∉ get_all_annotated_ids [⟨"Huurkor", 5, [0]⟩] "Huurkor" := by
  have hfetch : fetch_random_reading [⟨"Huurkor", 5, [0]⟩]
      [ClientDB.mk "Huurkor"
        [{ reading_id := 5, utility_type := "cold_water" },
         { reading_id := 7, utility_type := "cold_water" }]] (1 / 2) 0 =
      some ({ reading_id := 7, utility_type := "cold_water" }, "Huurkor") := by
    norm_num [fetch_random_reading, first_hit, fetch_reading_from_client,
      eligible_rows, utility_filter_ok, passes_exclusion, get_all_annotated_ids,
      class_tallies, tally_row, select_target_utility_type, TARGET_DISTRIBUTION,
      weighted_pick, utility_name]
    decide
  exact ⟨by decide, hfetch,
    fetch_random_reading_no_duplicate_under_cap [⟨"Huurkor", 5, [0]⟩]
      [ClientDB.mk "Huurkor"
        [{ reading_id := 5, utility_type := "cold_water" },
         { reading_id := 7, utility_type := "cold_water" }]] (1 / 2) 0
      { reading_id := 7, utility_type := "cold_water" } "Huurkor"
      (by decide) hfetch⟩

/-- C8: if the sampling policy reports global exhaustion (returns none), the
orchestrator terminates immediately with the no-more-images error and its
state untouched, however many attempts remain - a signal distinct from a
download failure; and five consecutive download failures of pairwise distinct
records terminate with the distinct failed-after-5-attempts error, the
call-local exclusion list grown by exactly those 5 records. -/
theorem load_new_image_error_cases (fetch : ℕ → Option (ℕ × String))
    (download_ok : ℕ → ℕ × String → Bool) (rs : ℕ → ℕ × String) :
    (∀ fuel i failed dls offs, fetch i = none →
      load_loop fetch download_ok (fuel + 1) i failed dls offs =
        { error := some "No more images available to annotate.", loaded := none
          failed_readings := failed, downloads := dls, offers := offs }) ∧
    ((∀ i, i < 5 → fetch i = some (rs i)) →
     (∀ i, i < 5 → download_ok i (rs i) = false) →
     (∀ i j, i < 5 → j < 5 → i ≠ j → rs i ≠ rs j) →
      load_new_image fetch download_ok =
        { error := some "Failed to load image after 5 attempts.", loaded := none
          failed_readings := [rs 0, rs 1, rs 2, rs 3, rs 4]
          downloads := [rs 0, rs 1, rs 2, rs 3, rs 4]
          offers := [rs 0, rs 1, rs 2, rs 3, rs 4] }) := by
  constructor
  · intro fuel i failed dls offs h
    simp only [load_loop, h]
  · intro hf hd hinj
    have e0 := hf 0 (by norm_num)
    have e1 := hf 1 (by norm_num)
    have e2 := hf 2 (by norm_num)
    have e3 := hf 3 (by norm_num)
    have e4 := hf 4 (by norm_num)
    have d0 := hd 0 (by norm_num)
    have d1 := hd 1 (by norm_num)
    have d2 := hd 2 (by norm_num)
    have d3 := hd 3 (by norm_num)
    have d4 := hd 4 (by norm_num)
    have h10 := hinj 1 0 (by norm_num) (by norm_num) (by norm_num)
    have h20 := hinj 2 0 (by norm_num) (by norm_num) (by norm_num)
    have h21 := hinj 2 1 (by norm_num) (by norm_num) (by norm_num)
    have h30 := hinj 3 0 (by norm_num) (by norm_num) (by norm_num)
    have h31 := hinj 3 1 (by norm_num) (by norm_num) (by norm_num)
    have h32 := hinj 3 2 (by norm_num) (by norm_num) (by norm_num)
    have h40 := hinj 4 0 (by norm_num) (by norm_num) (by norm_num)
    have h41 := hinj 4 1 (by norm_num) (by norm_num) (by norm_num)
    have h42 := hinj 4 2 (by norm_num) (by norm_num) (by norm_num)
    have h43 := hinj 4 3 (by norm_num) (by norm_num) (by norm_num)
    rw [show load_new_image fetch download_ok =
      load_loop fetch download_ok (4 + 1) 0 [] [] [] from rfl]
    simp only [load_loop, e0, e1, e2, e3, e4, d0, d1, d2, d3, d4,
      List.mem_cons, List.not_mem_nil, List.mem_singleton, List.nil_append,
      List.cons_append, List.append_nil, or_false, false_or,
      Bool.false_eq_true, if_false, h10, h20, h21, h30, h31, h32, h40, h41,
      h42, h43]

/-- Witness for C8: both error paths at concrete inputs - the policy
exhausted at once, and five straight failures on the records (0..4, Huurkor). -/
theorem load_new_image_error_cases_witness :
    load_loop (fun _ => none) (fun _ _ => false) (4 + 1) 0 [] [] [] =
      { error := some "No more images available to annotate.", loaded := none
        failed_readings := [], downloads := [], offers := [] } ∧
    load_new_image (fun i => some (i, "Huurkor")) (fun _ _ => false) =
      { error := some "Failed to load image after 5 attempts.", loaded := none
        failed_readings := [(0, "Huurkor"), (1, "Huurkor"), (2, "Huurkor"),
          (3, "Huurkor"), (4, "Huurkor")]
        downloads := [(0, "Huurkor"), (1, "Huurkor"), (2, "Huurkor"),
          (3, "Huurkor"), (4, "Huurkor")]
        offers := [(0, "Huurkor"), (1, "Huurkor"), (2, "Huurkor"),
          (3, "Huurkor"), (4, "Huurkor")] } :=
  ⟨(load_new_image_error_cases (fun _ => none) (fun _ _ => false)
      (fun i => (i, "Huurkor"))).1 4 0 [] [] [] rfl,
   (load_new_image_error_cases (fun i => some (i, "Huurkor")) (fun _ _ => false)
      (fun i => (i, "Huurkor"))).2 (fun _ _ => rfl) (fun _ _ => rfl)
      (fun _ _ _ _ hne heq => hne (congrArg Prod.fst heq))⟩

/-- Downloads-accumulator invariant of the retry loop: if the accumulated
download list has no duplicates and every downloaded record is in the failed
list, the final download list has no duplicates either: a record is only
downloaded when it is not in the failed list, and a failed download puts it
there. -/
lemma load_loop_downloads_nodup (fetch : ℕ → Option (ℕ × String))
    (download_ok : ℕ → ℕ × String → Bool) :
    ∀ fuel i failed dls offs, dls.Nodup → (∀ rc ∈ dls, rc ∈ failed) →
      (load_loop fetch download_ok fuel i failed dls offs).downloads.Nodup := by
  intro fuel
  induction fuel with
  | zero => intro i failed dls offs h1 _; exact h1
  | succ n ih =>
      intro i failed dls offs h1 h2
      simp only [load_loop]
      cases hf : fetch i with
      | none => exact h1
      | some rc =>
          by_cases hm : rc ∈ failed
          · simp only [if_pos hm]
            exact ih (i + 1) failed dls (offs ++ [rc]) h1 h2
          · have hnd : rc ∉ dls := fun hin => hm (h2 rc hin)
            have h1' : (dls ++ [rc]).Nodup := by
              rw [List.nodup_append]
              exact ⟨h1, List.nodup_singleton rc, by simpa using hnd⟩
            by_cases hdl : download_ok i rc = true
            · simp only [if_neg hm, if_pos hdl]
              exact h1'
            · simp only [if_neg hm, if_neg hdl]
              refine ih (i + 1) (failed ++ [rc]) (dls ++ [rc]) (offs ++ [rc]) h1' ?_
              intro x hx
              rcases List.mem_append.mp hx with hx | hx
              · exact List.mem_append.mpr (Or.inl (h2 x hx))
              · exact List.mem_append.mpr (Or.inr hx)

/-- C9 (amended): within one `load_new_image` call, a record whose download
has failed is never downloaded again - a re-offered record is skipped via the
call-local `failed_readings` list, so the download list never repeats a
record, for every policy behavior and download outcome. -/
theorem load_new_image_never_downloads_twice (fetch : ℕ → Option (ℕ × String))
    (download_ok : ℕ → ℕ × String → Bool) :
    (load_new_image fetch download_ok).downloads.Nodup :=
  load_loop_downloads_nodup fetch download_ok 5 0 [] [] [] List.nodup_nil
    (by intro rc h; cases h)

/-- C9 counterexample: the failing record IS offered again. With the policy
returning record (1, Huurkor) on every attempt (legitimate, since the source
calls `fetch_random_reading()` without arguments and its inputs - database
state and randomness distribution - are unchanged by a failed download) and
the download always failing, the record fails on attempt 0 yet is offered
again on attempts 1-4: the claim that the policy is invoked with the failed
record excluded, so that the record is not offered again, is false. Only one
download is attempted, and the failed list ends with the single record. -/
theorem load_failed_record_reoffered :
    load_new_image (fun _ => some (1, "Huurkor")) (fun _ _ => false) =
      { error := some "Failed to load image after 5 attempts.", loaded := none
        failed_readings := [(1, "Huurkor")], downloads := [(1, "Huurkor")]
        offers := [(1, "Huurkor"), (1, "Huurkor"), (1, "Huurkor"),
          (1, "Huurkor"), (1, "Huurkor")] } := by
  decide

/-- Round-trip of one detection through its serialized dict. -/
lemma detection_to_dict_from_dict (d : Detection) :
    Detection.from_dict (Detection.to_dict d) = d := by
  cases d with
  | mk class_label obb annotator_reading =>
      cases obb
      rfl

/-- C10: serialization of detections round-trips: deserializing the
serialized detection list of any annotation returns the same list; the OBB
list form round-trips as well, and so does the empty (no-meter) detection
list. -/
theorem detections_serialization_roundtrip :
    (∀ ds : List Detection, detections_from_json (detections_to_json ds) = ds) ∧
    (∀ o : OBBCoordinates, OBBCoordinates.from_list o.to_list = o) ∧
    detections_from_json (detections_to_json []) = [] := by
  refine ⟨?_, ?_, rfl⟩
  · intro ds
    rw [detections_from_json, detections_to_json, List.map_map]
    have h : Detection.from_dict ∘ Detection.to_dict = id :=
      funext detection_to_dict_from_dict
    rw [h, List.map_id]
  · intro o
    cases o
    rfl

end UrbtecLabelling
